import Mathlib

/-!
Verification of the ventus offload driver, `gcc/config/riscv/mkoffload.cc`.

The development is a shallow embedding of the source file: every function of
the driver is translated into a pure Lean definition, with the filesystem,
the process environment and subprocess exit statuses supplied as explicit
oracle inputs.  Line numbers in the comments refer to
`src/gcc/config/riscv/mkoffload.cc`.
-/

namespace Mkoffload

/-! ### C strings

The driver manipulates NUL-terminated C strings; we model a C string as a
`List Char` (or a Lean `String`, whose `data` field is that list).  Helpers
below mirror the exact string functions the source uses. -/

/-- Model of gcc's `startswith (str, prefix)` used at lines 281 and 426-427. -/
def startswith (s pre : String) : Bool := pre.data.isPrefixOf s.data

/-- Model of `argv[i] + strlen (STR)`: the remainder of `s` after the first
`n` characters (line 282). -/
def dropChars (s : String) (n : Nat) : String := ⟨s.data.drop n⟩

/-- Model of `strcmp (argv[ix] + strlen (argv[ix]) - 2, ".o") == 0`
(line 399).  For an argument shorter than two characters the C expression
reads before the start of the string (undefined behaviour); the model treats
such arguments as non-matching. -/
def endsDotO (s : String) : Bool :=
  decide (2 ≤ s.data.length) && (s.data.drop (s.data.length - 2) == ['.', 'o'])

/-! ### `parse_env_var` (lines 55-84)

The source first counts the `':'` characters to size the result array
(`num = colons + 1`, lines 58-64), then extracts `num` fields, each running
from `curval` to the next `':'` (or the terminating NUL), stepping `curval`
past the separator after each field (lines 67-81). -/

/-- Count of `':'` characters, mirroring the `strchr` counting loop at
lines 60-64. -/
def countColons : List Char → Nat
  | [] => 0
  | c :: cs => (if c = ':' then 1 else 0) + countColons cs

/-- Extraction loop of `parse_env_var` (lines 72-81): `n` fields are taken;
each field runs up to the next `':'` (or the end of the string), and the
cursor then steps past that separator. -/
def parseFields : Nat → List Char → List (List Char)
  | 0, _ => []
  | n + 1, s => s.takeWhile (· ≠ ':') :: parseFields n ((s.dropWhile (· ≠ ':')).drop 1)

/-- Model of `parse_env_var` (lines 55-84): the returned array of strings. -/
def parse_env_var (s : List Char) : List (List Char) :=
  parseFields (countColons s + 1) s

/-- String-typed wrapper of `parse_env_var`, used by the driver at
line 255. -/
def parse_env_var_str (s : String) : List String :=
  (parse_env_var s.data).map (fun l => ⟨l⟩)

/-- Specification-side definition: the colon-separated fields of a string,
in order, by structural recursion (the empty string has a single empty
field). -/
def colonFields : List Char → List (List Char)
  | [] => [[]]
  | c :: cs =>
    if c = ':' then [] :: colonFields cs
    else
      match colonFields cs with
      | f :: fs => (c :: f) :: fs
      | [] => [[c]]

/-! ### Filesystem oracle and `access_check` (lines 44-53)

`stat` either fails (the path does not exist) or reports whether the path is
a directory; `access (name, X_OK)` succeeds exactly when the path exists and
is executable by the current process. -/

/-- Result of a successful `stat`/`access` probe of one path. -/
structure FileStat where
  isDir : Bool
  executable : Bool
deriving DecidableEq

/-- Filesystem oracle: `none` means `stat`/`access` fail (no such file). -/
def FS := String → Option FileStat

/-- The `X_OK` mode bit of `access(2)`. -/
def X_OK : Nat := 1

/-- Model of the `access(2)` system call: `0` exactly when the path exists
and (for `X_OK`) is executable by the current process. -/
def sys_access (fs : FS) (name : String) (mode : Nat) : Int :=
  match fs name with
  | none => -1
  | some st => if mode = X_OK then (if st.executable then 0 else -1) else 0

/-- Model of `access_check` (lines 44-53): for `X_OK`, first `stat` the
path and reject a failed `stat` or a directory, then fall through to
`access`. -/
def access_check (fs : FS) (name : String) (mode : Nat) : Int :=
  if mode = X_OK then
    match fs name with
    | none => -1
    | some st => if st.isDir then -1 else sys_access fs name mode
  else sys_access fs name mode

/-- Search loop of `main` (lines 253-266): probe `<dir>/<name>` for each
directory of the parsed `COMPILER_PATH` in order and stop at the first
probe that `access_check` accepts. -/
def find_in_paths (fs : FS) (name : String) : List String → Option String
  | [] => none
  | p :: rest =>
    if access_check fs (p ++ "/" ++ name) X_OK = 0 then some (p ++ "/" ++ name)
    else find_in_paths fs name rest

/-! ### Environment and fatal errors of `main` -/

/-- The environment variables the driver reads or writes. -/
inductive EnvVar
  | collectGcc        -- COLLECT_GCC                      (line 225)
  | compilerPath      -- COMPILER_PATH                    (lines 255, 443, 446)
  | gccExecPfx        -- GCC_EXEC_PREFIX                  (lines 442, 445)
  | libraryPath       -- LIBRARY_PATH                     (lines 444, 447)
  | ompRequiresFile   -- GCC_OFFLOAD_OMP_REQUIRES_FILE    (lines 457, 460)
deriving DecidableEq

/-- Process environment: a map from variable to its value, if set. -/
def EnvMap := EnvVar → Option String

/-- Model of `unsetenv`. -/
def envUnset (m : EnvMap) (v : EnvVar) : EnvMap :=
  fun k => if k = v then none else m k

/-- Model of `putenv`/`xputenv` (lines 99-103) setting `v` to `s`. -/
def envSet (m : EnvMap) (v : EnvVar) (s : String) : EnvMap :=
  fun k => if k = v then some s else m k

/-- The `fatal_error` calls of `main`, by their message. -/
inductive Fatal
  | atexitFailed                -- "atexit failed"                         (line 223)
  | collectGccUnset             -- "COLLECT_GCC must be set."              (line 227)
  | offloadCompilerNotFound     -- "offload compiler %s not found"         (line 269)
  | badOffloadAbiArg            -- "unrecognizable argument of option -foffload-abi=" (line 287)
  | modelFlagMissing            -- "either -fopenacc or -fopenmp must be set" (line 307)
  | cannotOpen (path : String)  -- "cannot open '%s'"                      (line 357)
  | compileStageFailed          -- do_wait diagnoses a failed compile subprocess
deriving DecidableEq

/-- How a run of the driver process terminates. -/
inductive Outcome
  | fatal (f : Fatal)   -- fatal_error: nonzero exit through the diagnostic machinery
  | crash               -- undefined behaviour (parse_env_var applied to a NULL COMPILER_PATH, line 255)
  | unreachable         -- gcc_unreachable () (line 318)
  | exited (code : Int) -- return from main (line 463)
deriving DecidableEq

/-- Driver resolution, lines 228-270.  When `COLLECT_GCC` has no directory
component (`basename == collect_gcc`, lines 234-237) the driver name alone
is used and the search is skipped; otherwise the sibling
`<dir>/GCC_INSTALL_NAME` is probed (lines 240-248) and, on failure, every
directory of `COMPILER_PATH` (lines 249-266).  A missing `COMPILER_PATH`
makes line 255 pass NULL to `parse_env_var`, which dereferences it. -/
def basename (s : String) : String := ⟨(s.data.reverse.takeWhile (· ≠ '/')).reverse⟩

/-- Model of libgen `dirname` for the paths the driver sees: everything
before the last `/`, or `"."` when there is no separator. -/
def dirname (s : String) : String :=
  if s.data.contains '/' then ⟨((s.data.reverse.dropWhile (· ≠ '/')).reverse).dropLast⟩
  else "."

/-- The oracles of one driver run: filesystem, libc and subprocess
behaviour, and the two build-time constants. -/
structure Sys where
  fs : FS
  atexitOk : Bool                  -- atexit(3) returned 0 (line 222)
  fopen_w_ok : String → Bool       -- fopen (path, "w") succeeds (line 355)
  extract_ok : String → Bool       -- copy_early_debug_info on that input object (line 410)
  spawnStatus : List String → Int  -- exit status of a fork_execute'd command (line 458)
  gcc_install_name : String        -- the configure-time GCC_INSTALL_NAME macro
  garbage : String                 -- indeterminate value of the never-initialized gcn_o_name (line 364)

/-- Lines 228-270: resolve the offload compiler executable. -/
def resolve_driver (sys : Sys) (env0 : EnvMap) (cg : String) : Except Outcome String :=
  if basename cg = cg then .ok sys.gcc_install_name
  else
    let d := dirname cg ++ "/" ++ sys.gcc_install_name
    if access_check sys.fs d X_OK = 0 then .ok d
    else
      match env0 EnvVar.compilerPath with
      | none => .error Outcome.crash
      | some cp =>
        match find_in_paths sys.fs sys.gcc_install_name (parse_env_var_str cp) with
        | some d2 => .ok d2
        | none => .error (Outcome.fatal Fatal.offloadCompilerNotFound)

/-! ### The debug info extractor, `copy_early_debug_info` (lines 105-208)

The function opens the input object with the libiberty `simple_object`
reader, copies the LTO debug sections to `outfile`, then re-opens the
output to walk its `SHT_RELA` sections.  The relocation-translation switch
(lines 178-203) is entirely commented out in the source and the section
buffer is never written back, so the walk reads but never modifies the
file.  The model returns, besides the boolean result, the final state of
the output path and the list of relocation sections the walk examined. -/

/-- ELF constants used by the source (elf.h). -/
def SHT_RELA : Nat := 4

/-- Machine number of x86-64 ELF objects, asserted at line 150. -/
def EM_X86_64 : Nat := 62

/-- x86-64 relocation type `R_X86_64_64` (named in the commented-out
translation table, line 193). -/
def R_X86_64_64 : Nat := 1

/-- The fields of `Elf64_Ehdr` that the source reads (lines 144-156). -/
structure Elf64_Ehdr where
  e_machine : Nat
  e_shoff : Nat
  e_shnum : Nat
deriving DecidableEq

/-- The fields of `Elf64_Shdr` that the source reads (lines 163-175). -/
structure Elf64_Shdr where
  sh_type : Nat
  sh_offset : Nat
  sh_size : Nat
  sh_entsize : Nat
deriving DecidableEq

/-- The output object as the re-opened file presents it: the copied debug
section bytes, plus the outcomes of the three kinds of reads the source
performs against it (a failed `fread`/`fseek` is `none`). -/
structure OutImage where
  debugBytes : List Nat                        -- bytes of the copied .gnu.debuglto_.debug_info section
  header : Option Elf64_Ehdr                   -- fread of the ELF header (lines 144-148)
  shdrs : Option (List Elf64_Shdr)             -- fread of the e_shnum section headers at e_shoff (lines 152-161)
  readData : Elf64_Shdr → Option (List Nat)    -- fseek to sh_offset and fread of sh_size bytes (lines 167-172)

/-- State of the output path on disk. -/
inductive OutFS
  | absent
  | file (img : OutImage)

/-- Result of one `copy_early_debug_info` call: the returned boolean with
the final state of the output path and the `SHT_RELA` sections whose bytes
the relocation walk read, or the `gcc_assert` abort of line 150. -/
inductive ExtractResult
  | ret (ok : Bool) (out : OutFS) (scanned : List Elf64_Shdr)
  | assertFailed (out : OutFS)

/-- Oracle inputs of one `copy_early_debug_info` call. -/
structure ExtractEnv where
  openOk : Bool               -- open (infile, O_RDONLY) succeeded            (line 111)
  startReadOk : Bool          -- simple_object_start_read returned non-NULL   (lines 114-117)
  hasDebugSection : Bool      -- simple_object_find_section found ".gnu.debuglto_.debug_info" (lines 120-125)
  copyOk : Bool               -- simple_object_copy_lto_debug_sections returned no errmsg (line 127)
  halfWritten : OutFS         -- state the failed copy left at outfile, removed at line 129
  copied : OutImage           -- the output object a successful copy wrote
  inputDebugBytes : List Nat  -- the input object's .gnu.debuglto_.debug_info bytes
  fopenOk : Bool              -- fopen (outfile, "r+b") succeeded             (lines 138-140)

/-- Modelled from the spec: `simple_object_copy_lto_debug_sections`
(libiberty, not part of this source file) copies the debug-info-bearing
sections of the input into the new container, so on success the output's
debug section holds exactly the input's debug bytes. -/
def copiedImage (env : ExtractEnv) : OutImage :=
  { env.copied with debugBytes := env.inputDebugBytes }

/-- The section walk of lines 163-205: sections that are not `SHT_RELA` are
skipped (line 164), a failed `fseek`/`fread` of the section bytes skips the
section (lines 168-172), and for a read section the record loop of
lines 174-204 examines each record but its entire translation switch is
commented out, so nothing is modified and nothing is written back to the
file. -/
def rela_walk (img : OutImage) : List Elf64_Shdr → List Elf64_Shdr
  | [] => []
  | s :: rest =>
    if s.sh_type ≠ SHT_RELA then rela_walk img rest
    else
      match img.readData s with
      | none => rela_walk img rest
      | some _data => s :: rela_walk img rest

/-- Model of `copy_early_debug_info` (lines 105-208); `out0` is the state
of the output path when the call starts. -/
def copy_early_debug_info (env : ExtractEnv) (out0 : OutFS) : ExtractResult :=
  if env.openOk = false then .ret false out0 []                  -- lines 111-113
  else if env.startReadOk = false then .ret false out0 []        -- lines 114-117
  else if env.hasDebugSection = false then .ret false out0 []    -- lines 120-125
  else if env.copyOk = false then .ret false .absent []          -- lines 127-131: unlink_if_ordinary (outfile)
  else
    let img := copiedImage env
    if env.fopenOk = false then .ret false (.file img) []        -- lines 138-140
    else
      match img.header with
      | none => .ret true (.file img) []                         -- lines 145-148: short header read, return true
      | some ehdr =>
        if ehdr.e_machine ≠ EM_X86_64 then .assertFailed (.file img)  -- line 150: gcc_assert
        else
          match img.shdrs with
          | none => .ret true (.file img) []                     -- lines 155-161: short table read, return true
          | some sections =>
            .ret true (.file img) (rela_walk img sections)       -- lines 163-207

/-! Concrete witness inputs for the extractor theorems.  The witness image
has one text section and one `SHT_RELA` section whose single 24-byte record
carries `r_info` type `R_X86_64_64` (byte 8 of the record, little endian) —
a source-architecture relocation type code. -/

/-- A non-relocation section of the witness image. -/
def shdrText : Elf64_Shdr := { sh_type := 1, sh_offset := 64, sh_size := 8, sh_entsize := 0 }

/-- The relocation section of the witness image. -/
def shdrRela : Elf64_Shdr := { sh_type := SHT_RELA, sh_offset := 128, sh_size := 24, sh_entsize := 24 }

/-- Raw bytes of the witness relocation section: one `Elf64_Rela` record
whose type byte (offset 8) is `R_X86_64_64`. -/
def relaBytes : List Nat :=
  [0, 0, 0, 0, 0, 0, 0, 0,
   R_X86_64_64, 0, 0, 0, 7, 0, 0, 0,
   0, 0, 0, 0, 0, 0, 0, 0]

/-- The witness output image. -/
def imgW : OutImage :=
  { debugBytes := [1, 2, 3],
    header := some { e_machine := EM_X86_64, e_shoff := 64, e_shnum := 2 },
    shdrs := some [shdrText, shdrRela],
    readData := fun s => if s = shdrRela then some relaBytes else none }

/-- The witness extractor oracle for a fully successful call. -/
def envW : ExtractEnv :=
  { openOk := true, startReadOk := true, hasDebugSection := true, copyOk := true,
    halfWritten := .absent, copied := imgW, inputDebugBytes := [1, 2, 3], fopenOk := true }

/-- The witness extractor oracle for a failed copy step. -/
def envWcopyFail : ExtractEnv :=
  { envW with copyOk := false, halfWritten := .file imgW }

/-- The witness extractor oracle whose output header cannot be read back. -/
def envWshortHeader : ExtractEnv :=
  { envW with copied := { imgW with header := none } }

/-- The witness extractor oracle whose section header table cannot be read
back. -/
def envWshortShdrs : ExtractEnv :=
  { envW with copied := { imgW with shdrs := none } }

/-! ### `main` (lines 210-463)

The driver is modelled as a pure function of the argument vector (without
`argv[0]`), the initial environment and the `Sys` oracles.  It returns the
process outcome together with the subprocesses spawned (in order), the
contents of the `files_to_cleanup` registry, the final environment, the
built link argument vector (which the source never executes) and the
strings passed to `free` while still registered. -/

/-- ABI selected by `-foffload-abi=` (lines 38, 280-288, 310-319). -/
inductive OffloadAbi
  | unset
  | lp64
  | ilp32
deriving DecidableEq

/-- The scalar flags the scan loop of lines 274-304 derives. -/
structure ScanFlags where
  offload_abi : OffloadAbi := .unset
  fopenmp : Bool := false
  fopenacc : Bool := false
  fPIC : Bool := false
  fpic : Bool := false
  save_temps : Bool := false
  verbose : Bool := false
  dumppfx : Option String := none
deriving DecidableEq

/-- The argument scan loop (lines 279-304).  `-foffload-abi=` is matched by
its 14-character literal; `-dumpbase` consumes the following argument as
the dump prefix when one exists (lines 302-303). -/
def scan_args : List String → ScanFlags → Except Fatal ScanFlags
  | [], st => .ok st
  | a :: rest, st =>
    if startswith a "-foffload-abi=" then
      if dropChars a 14 = "lp64" then scan_args rest { st with offload_abi := .lp64 }
      else if dropChars a 14 = "ilp32" then scan_args rest { st with offload_abi := .ilp32 }
      else .error .badOffloadAbiArg
    else if a = "-fopenmp" then scan_args rest { st with fopenmp := true }
    else if a = "-fopenacc" then scan_args rest { st with fopenacc := true }
    else if a = "-fPIC" then scan_args rest { st with fPIC := true }
    else if a = "-fpic" then scan_args rest { st with fpic := true }
    else if a = "-save-temps" then scan_args rest { st with save_temps := true }
    else if a = "-v" then scan_args rest { st with verbose := true }
    else if a = "-dumpbase" then
      match rest with
      | b :: rest2 => scan_args rest2 { st with dumppfx := some b }
      | [] => .ok st
    else scan_args rest st

/-- The compile-stage pass-through loop (lines 336-341): every argument is
forwarded except `-o <path>` pairs, whose last path becomes `outname`.  A
trailing lone `-o` is forwarded. -/
def scan_o : List String → List String × Option String
  | [] => ([], none)
  | [a] => ([a], none)
  | a :: b :: rest =>
    if a = "-o" then
      let p := scan_o rest
      (p.1, some (p.2.getD b))
    else
      let p := scan_o (b :: rest)
      (a :: p.1, p.2)

/-- Model of libiberty `concat (s, suffix, NULL)` where `s` may be the NULL
`dumppfx`: `concat` stops at its first NULL argument, so a NULL `s` yields
the empty string (lines 346, 360, 404, 451). -/
def concatD (d : Option String) (suffix : String) : String :=
  match d with
  | none => ""
  | some s => s ++ suffix

/-- Model of `make_temp_file`: the `k`-th temporary name of the run with
the given suffix (distinct deterministic names stand in for the random
ones). -/
def make_temp_file (k : Nat) (suffix : String) : String :=
  "/tmp/cc" ++ toString k ++ suffix

/-- The compile-stage argument vector before the dump arguments
(lines 322-341). -/
def cc_base (driver : String) (fl : ScanFlags) (abi : String) (ccPass : List String) :
    List String :=
  [driver, "-S"] ++ (if fl.save_temps then ["-save-temps"] else [])
    ++ (if fl.verbose then ["-v"] else []) ++ [abi, "-xlto"]
    ++ (if fl.fopenmp then ["-mgomp"] else []) ++ ccPass

/-- State threaded through the per-object debug-extraction loop
(lines 394-417). -/
structure DbgState where
  dbgcount : Nat
  tmpk : Nat
  registry : List String
  ldObjs : List String
  freed : List String

/-- One `.o` argument of the loop (lines 400-414): the debug object name is
derived (deterministic under `-save-temps`, a temp file otherwise),
registered with `files_to_cleanup` *before* the extraction attempt
(line 408); on success it is appended to the link arguments and registered
a second time (lines 411-412), on failure the string is freed while still
sitting in the registry (line 414). -/
def dbg_obj (sys : Sys) (save_temps : Bool) (dumppfx : Option String) (a : String)
    (st : DbgState) : DbgState :=
  let dbgobj := if save_temps then concatD dumppfx (".mkoffload.dbg" ++ toString st.dbgcount ++ ".o")
                else make_temp_file st.tmpk ".mkoffload.dbg.o"
  let dbgcount1 := if save_temps then st.dbgcount + 1 else st.dbgcount
  let tmpk1 := if save_temps then st.tmpk else st.tmpk + 1
  if sys.extract_ok a then
    { dbgcount := dbgcount1, tmpk := tmpk1,
      registry := st.registry ++ [dbgobj, dbgobj],
      ldObjs := st.ldObjs ++ [dbgobj], freed := st.freed }
  else
    { dbgcount := dbgcount1, tmpk := tmpk1,
      registry := st.registry ++ [dbgobj],
      ldObjs := st.ldObjs, freed := st.freed ++ [dbgobj] }

/-- The per-object loop itself (lines 394-417): `-o <path>` pairs are
skipped (lines 396-397); arguments whose last two characters are `.o` go
through `dbg_obj`. -/
def dbg_loop (sys : Sys) (save_temps : Bool) (dumppfx : Option String) :
    List String → DbgState → DbgState
  | [], st => st
  | [a], st =>
    if endsDotO a then dbg_obj sys save_temps dumppfx a st else st
  | a :: b :: rest, st =>
    if a = "-o" then dbg_loop sys save_temps dumppfx rest st
    else if endsDotO a then dbg_loop sys save_temps dumppfx (b :: rest) (dbg_obj sys save_temps dumppfx a st)
    else dbg_loop sys save_temps dumppfx (b :: rest) st

/-- The result of one driver run. -/
structure MainResult where
  outcome : Outcome
  env : EnvMap
  registry : List String := []
  spawns : List (List String) := []
  ldArgs : List String := []
  freed : List String := []

/-- A `fatal_error` termination with the registry as accumulated so far. -/
def mrFatal (env : EnvMap) (reg : List String) (f : Fatal) : MainResult :=
  { outcome := .fatal f, env := env, registry := reg }

/-- The `offload_abi == OFFLOAD_ABI_LP64` block (lines 359-463): derived
artifact names are registered (including the never-initialized
`gcn_o_name`, line 376), the debug-extraction loop runs, the link argument
vector is built but never executed, the three toolchain redirection
variables are unset and never restored (lines 442-447), the requires-file
variable is set, the compile subprocess runs (its failure is fatal via
`do_wait` of collect-utils, modelled from the spec: a nonzero compile-stage
exit is a fatal), the requires-file variable is cleared, and `main` returns
`-1` (line 463). -/
def main_lp64 (sys : Sys) (env0 : EnvMap) (argv : List String) (driver : String)
    (fl : ScanFlags) (ccPass : List String) (dumppfx : Option String)
    (reg1 : List String) (k1 : Nat) (abi : String) : MainResult :=
  let mko_dumpbase := concatD dumppfx ".mkoffload"
  let s1 := if fl.save_temps then mko_dumpbase ++ ".1.s" else make_temp_file k1 ".mkoffload.1.s"
  let s2 := if fl.save_temps then mko_dumpbase ++ ".2.s" else make_temp_file (k1 + 1) ".mkoffload.2.s"
  let k2 := if fl.save_temps then k1 else k1 + 2
  let reg2 := reg1 ++ [s1, s2, sys.garbage]
  let ccArgv := cc_base driver fl abi ccPass
      ++ ["-dumpdir", "", "-dumpbase", mko_dumpbase, "-dumpbase-ext", "", "-o", s1]
  let dst := dbg_loop sys fl.save_temps dumppfx argv
      { dbgcount := 0, tmpk := k2, registry := reg2, ldObjs := [], freed := [] }
  let ldArgv := [driver] ++ dst.ldObjs
      ++ (if fl.verbose then ["-v"] else []) ++ (if fl.save_temps then ["-save-temps"] else [])
      ++ argv.filter (fun a => startswith a "-l" || startswith a "-Wl" || startswith a "-march")
      ++ ["-o", sys.garbage]
  let env1 := envUnset (envUnset (envUnset env0 .gccExecPfx) .compilerPath) .libraryPath
  let omp_requires_file := if fl.save_temps then concatD dumppfx ".mkoffload.omp_requires"
      else make_temp_file dst.tmpk ".mkoffload.omp_requires"
  let reg3 := dst.registry ++ [omp_requires_file]
  let env2 := envSet env1 .ompRequiresFile omp_requires_file
  -- The two branches of the compile spawn (success: reach line 463 and
  -- return -1; failure: do_wait's fatal) differ only in outcome and in
  -- whether line 460 cleared the requires-file variable.
  { outcome := if sys.spawnStatus ccArgv = 0 then .exited (-1) else .fatal .compileStageFailed,
    env := if sys.spawnStatus ccArgv = 0 then envUnset env2 .ompRequiresFile else env2,
    registry := reg3, spawns := [ccArgv], ldArgs := ldArgv, freed := dst.freed }

/-- Lines 321-357 and the branch on the ABI: output-name extraction, dump
prefix defaulting, the C-file artifact (registered at line 353, opened at
line 355), then the LP64 block; for ILP32 the block is skipped and `main`
falls through to `return -1`. -/
def main_stage2 (sys : Sys) (env0 : EnvMap) (argv : List String) (driver : String)
    (fl : ScanFlags) (abi : String) (isLp64 : Bool) : MainResult :=
  let p := scan_o argv
  let dumppfx := fl.dumppfx <|> p.2
  let gcn_dumpbase := concatD dumppfx ".c"
  let gcn_cfile_name := if fl.save_temps then gcn_dumpbase else make_temp_file 0 ".c"
  let k1 : Nat := if fl.save_temps then 0 else 1
  let reg1 := [gcn_cfile_name]
  if sys.fopen_w_ok gcn_cfile_name = false then
    mrFatal env0 reg1 (.cannotOpen gcn_cfile_name)
  else if isLp64 = false then
    { outcome := .exited (-1), env := env0, registry := reg1 }
  else main_lp64 sys env0 argv driver fl p.1 dumppfx reg1 k1 abi

/-- Model of `main` (lines 210-463); `argv` is the argument vector without
`argv[0]`, and `expandargv` (line 272) is the identity because no modelled
argument names an `@file`. -/
def main_run (sys : Sys) (env0 : EnvMap) (argv : List String) : MainResult :=
  if sys.atexitOk = false then mrFatal env0 [] .atexitFailed
  else
    match env0 EnvVar.collectGcc with
    | none => mrFatal env0 [] .collectGccUnset
    | some cg =>
      match resolve_driver sys env0 cg with
      | .error o => { outcome := o, env := env0 }
      | .ok driver =>
        match scan_args argv {} with
        | .error f => mrFatal env0 [] f
        | .ok fl =>
          if Bool.xor fl.fopenacc fl.fopenmp = false then
            mrFatal env0 [] .modelFlagMissing
          else
            match fl.offload_abi with
            | .unset => { outcome := .unreachable, env := env0 }
            | .lp64 => main_stage2 sys env0 argv driver fl "-mabi=lp64d" true
            | .ilp32 => main_stage2 sys env0 argv driver fl "-mabi=ipl32d" false

/-- Lines 40-42: the registered cleanup hook.  `tool_cleanup` has an empty
body, so it performs no deletion on any filesystem state. -/
def tool_cleanup (_from_signal : Bool) (fs : String → Bool) : String → Bool := fs

/-- Line 42: the `atexit` hook calls `tool_cleanup (false)`. -/
def mkoffload_cleanup (fs : String → Bool) : String → Bool := tool_cleanup false fs

/-! ### Concrete run inputs used by the closed theorems and witnesses -/

/-- An empty filesystem: every `stat` fails. -/
def fsNone : FS := fun _ => none

/-- Oracles of a run in which libc and the compile subprocess succeed,
`COLLECT_GCC` was found on `PATH`, and every debug extraction fails. -/
def sysA : Sys :=
  { fs := fsNone, atexitOk := true, fopen_w_ok := fun _ => true,
    extract_ok := fun _ => false, spawnStatus := fun _ => 0,
    gcc_install_name := "riscv32gcc", garbage := "gcnOName" }

/-- Initial environment with `COLLECT_GCC` a bare name (found on `PATH`)
and all three toolchain redirection variables set. -/
def envA : EnvMap := fun v =>
  match v with
  | .collectGcc => some "gcc"
  | .compilerPath => some "Q"
  | .gccExecPfx => some "P"
  | .libraryPath => some "R"
  | .ompRequiresFile => none

/-- A well-formed invocation: one model flag and a recognized ABI. -/
def argvA : List String := ["-fopenmp", "-foffload-abi=lp64"]

/-- Both model flags present, but `-fopenmp` is consumed as the operand of
the preceding `-dumpbase` (lines 302-303). -/
def argvC2 : List String :=
  ["-foffload-abi=lp64", "-dumpbase", "-fopenmp", "-fopenacc"]

/-- A save-temps invocation with one object-file argument. -/
def argvC6 : List String :=
  ["-fopenmp", "-foffload-abi=lp64", "-save-temps", "-dumpbase", "base", "x.o"]

/-- Extractor oracle for an input object that is a recognizable container
without the LTO debug section. -/
def envNoDebugC6 : ExtractEnv := { envW with hasDebugSection := false }

/-- Witness filesystem for the locator: only `d1/cc1` exists, a
non-directory executable. -/
def fsW : FS := fun p =>
  if p = "d1/cc1" then some { isDir := false, executable := true } else none

/-- Witness oracles for the locator. -/
def sysW : Sys := { sysA with fs := fsW, gcc_install_name := "cc1" }

/-- Witness environment for the locator: `COLLECT_GCC` has a directory
component and `COMPILER_PATH` lists two directories. -/
def envWm : EnvMap := fun v =>
  match v with
  | .collectGcc => some "dir/gcc"
  | .compilerPath => some "d1:d2"
  | _ => none

/-! ### Theorems -/

theorem countColons_eq_count (s : List Char) : countColons s = s.count ':' := by
  induction s with
  | nil => rfl
  | cons c cs ih =>
    by_cases h : c = ':'
    · subst h; simp [countColons, ih, List.count_cons]; omega
    · simp [countColons, h, ih, List.count_cons, Ne.symm h]

theorem parseFields_length (n : Nat) (s : List Char) :
    (parseFields n s).length = n := by
  induction n generalizing s with
  | zero => rfl
  | succ n ih => simp [parseFields, ih]

theorem parseFields_cons_colon (n : Nat) (s : List Char) :
    parseFields (n + 1) (':' :: s) = [] :: parseFields n s := by
  simp [parseFields, List.takeWhile, List.dropWhile]

theorem parseFields_cons_other (n : Nat) (c : Char) (s : List Char) (h : c ≠ ':') :
    parseFields (n + 1) (c :: s) =
      (c :: s.takeWhile (· ≠ ':')) :: parseFields n ((s.dropWhile (· ≠ ':')).drop 1) := by
  simp [parseFields, List.takeWhile, List.dropWhile, h]

theorem colonFields_ne_nil (s : List Char) : colonFields s ≠ [] := by
  induction s with
  | nil => simp [colonFields]
  | cons c cs ih =>
    by_cases h : c = ':'
    · simp [colonFields, h]
    · simp only [colonFields, if_neg h]
      cases hcf : colonFields cs with
      | nil => exact absurd hcf ih
      | cons f fs => simp

theorem parse_env_var_eq_colonFields (s : List Char) :
    parse_env_var s = colonFields s := by
  induction s with
  | nil => rfl
  | cons c cs ih =>
    by_cases h : c = ':'
    · subst h
      show parseFields (countColons (':' :: cs) + 1) (':' :: cs) = _
      have hc : countColons (':' :: cs) + 1 = (countColons cs + 1) + 1 := by
        simp [countColons]; omega
      rw [hc, parseFields_cons_colon]
      simp only [colonFields, if_pos rfl]
      exact congrArg (List.cons []) ih
    · show parseFields (countColons (c :: cs) + 1) (c :: cs) = _
      have hc : countColons (c :: cs) = countColons cs := by simp [countColons, h]
      rw [hc, parseFields_cons_other _ _ _ h]
      have ih' : parseFields (countColons cs + 1) cs = colonFields cs := ih
      cases hn : countColons cs with
      | zero =>
        rw [hn] at ih'
        simp only [parseFields] at ih'
        simp [parseFields, colonFields, if_neg h, ← ih']
      | succ m =>
        rw [hn] at ih'
        have hstep : parseFields (m + 1 + 1) cs =
            cs.takeWhile (· ≠ ':') :: parseFields (m + 1) ((cs.dropWhile (· ≠ ':')).drop 1) := by
          simp [parseFields]
        rw [hstep] at ih'
        simp only [colonFields, if_neg h, ← ih']

theorem intercalate_colonFields (s : List Char) :
    List.intercalate [':'] (colonFields s) = s := by
  induction s with
  | nil => simp [colonFields, List.intercalate]
  | cons c cs ih =>
    by_cases h : c = ':'
    · subst h
      simp only [colonFields, if_pos rfl]
      cases hcf : colonFields cs with
      | nil => exact absurd hcf (colonFields_ne_nil cs)
      | cons f fs =>
        rw [hcf] at ih
        simp [List.intercalate, List.intersperse] at ih ⊢
        exact ih
    · simp only [colonFields, if_neg h]
      cases hcf : colonFields cs with
      | nil => exact absurd hcf (colonFields_ne_nil cs)
      | cons f fs =>
        rw [hcf] at ih
        cases fs with
        | nil => simp_all [List.intercalate, List.intersperse]
        | cons g gs =>
          simp [List.intercalate, List.intersperse] at ih ⊢
          exact ih

/-- C9: for every input string, `parse_env_var` returns exactly
`countColons s + 1` fields (one more than the number of `':'` characters),
those fields are precisely the colon-separated fields of the string in
order, and joining them with `':'` yields the input again; the empty string
yields one empty field. -/
theorem parse_env_var_correct (s : List Char) :
    (parse_env_var s).length = s.count ':' + 1 ∧
    parse_env_var s = colonFields s ∧
    List.intercalate [':'] (parse_env_var s) = s := by
  refine ⟨?_, parse_env_var_eq_colonFields s, ?_⟩
  · rw [parse_env_var, parseFields_length, countColons_eq_count]
  · rw [parse_env_var_eq_colonFields]; exact intercalate_colonFields s

/-- C8: `access_check` accepts a path exactly when it exists, is not a
directory and is executable by the current process; the `COMPILER_PATH`
loop probes the directories in their given order and returns the candidate
of the first acceptable directory; and when the direct sibling probe fails,
`resolve_driver` is exactly that loop over the parsed search path. -/
theorem toolchain_locator_correct (fs : FS) (name : String) (dirs : List String) :
    (∀ q, access_check fs q X_OK = 0 ↔
        ∃ st, fs q = some st ∧ st.isDir = false ∧ st.executable = true) ∧
    (find_in_paths fs name dirs =
        (dirs.find? (fun d => access_check fs (d ++ "/" ++ name) X_OK == 0)).map
          (fun d => d ++ "/" ++ name)) ∧
    (∀ (sys : Sys) (env0 : EnvMap) (cg cp : String),
        sys.fs = fs → sys.gcc_install_name = name →
        basename cg ≠ cg →
        access_check fs (dirname cg ++ "/" ++ name) X_OK ≠ 0 →
        env0 EnvVar.compilerPath = some cp →
        resolve_driver sys env0 cg =
          match find_in_paths fs name (parse_env_var_str cp) with
          | some d2 => .ok d2
          | none => .error (Outcome.fatal Fatal.offloadCompilerNotFound)) := by
  refine ⟨?_, ?_, ?_⟩
  · intro q
    unfold access_check sys_access X_OK
    cases hq : fs q with
    | none => simp
    | some st =>
      by_cases hd : st.isDir <;> by_cases hx : st.executable <;> simp [hq, hd, hx]
  · induction dirs with
    | nil => rfl
    | cons p rest ih =>
      by_cases hp : access_check fs (p ++ "/" ++ name) X_OK = 0
      · simp [find_in_paths, hp, List.find?]
      · simp only [find_in_paths, if_neg hp, ih, List.find?]
        have : (access_check fs (p ++ "/" ++ name) X_OK == 0) = false := by
          simp [hp]
        rw [this]
  · intro sys env0 cg cp hfs hname hb hprobe hcp
    unfold resolve_driver
    rw [hfs, hname, if_neg hb, if_neg hprobe, hcp]

/-- The relocation walk examines exactly the readable `SHT_RELA` sections,
in order. -/
theorem rela_walk_eq_filter (img : OutImage) (l : List Elf64_Shdr) :
    rela_walk img l =
      l.filter (fun s => s.sh_type == SHT_RELA && (img.readData s).isSome) := by
  induction l with
  | nil => rfl
  | cons s rest ih =>
    by_cases ht : s.sh_type = SHT_RELA
    · cases hr : img.readData s with
      | none => simp [rela_walk, ht, hr, ih, List.filter]
      | some d => simp [rela_walk, ht, hr, ih, List.filter]
    · have hb : (s.sh_type == SHT_RELA) = false := by simp [ht]
      simp [rela_walk, ht, ih, List.filter, hb]

/-- C3 evidence: on the full success path of `copy_early_debug_info` the
relocation-processing walk modifies nothing — the final output file is
exactly the image the copy step produced (so a relocation record keeps its
source-architecture x86-64 type code; no type is rewritten into the
destination architecture's relocation space). -/
theorem copy_early_debug_info_no_rewrite (env : ExtractEnv) (out0 : OutFS)
    (h1 : env.openOk = true) (h2 : env.startReadOk = true)
    (h3 : env.hasDebugSection = true) (h4 : env.copyOk = true)
    (h5 : env.fopenOk = true)
    (ehdr : Elf64_Ehdr) (h6 : (copiedImage env).header = some ehdr)
    (h7 : ehdr.e_machine = EM_X86_64)
    (sections : List Elf64_Shdr) (h8 : (copiedImage env).shdrs = some sections) :
    copy_early_debug_info env out0 =
      .ret true (.file (copiedImage env))
        (sections.filter
          (fun s => s.sh_type == SHT_RELA && ((copiedImage env).readData s).isSome)) := by
  rw [← rela_walk_eq_filter]
  simp [copy_early_debug_info, h1, h2, h3, h4, h5, h6, h7, h8]

/-- C7: when `simple_object_copy_lto_debug_sections` fails, the partially
written output is unlinked and the call returns failure, whatever state the
failed copy left on disk. -/
theorem copy_failure_removes_output (env : ExtractEnv) (out0 : OutFS)
    (h1 : env.openOk = true) (h2 : env.startReadOk = true)
    (h3 : env.hasDebugSection = true) (h4 : env.copyOk = false) :
    copy_early_debug_info env out0 = .ret false .absent [] := by
  simp [copy_early_debug_info, h1, h2, h3, h4]

/-- C10: after a successful copy, a failed read-back of the output's ELF
header, or of its section header table (with the machine assertion passed),
still returns success, and the relocation walk is silently skipped (no
section is examined). -/
theorem copy_success_despite_readback_failure (env : ExtractEnv) (out0 : OutFS)
    (h1 : env.openOk = true) (h2 : env.startReadOk = true)
    (h3 : env.hasDebugSection = true) (h4 : env.copyOk = true)
    (h5 : env.fopenOk = true) :
    ((copiedImage env).header = none →
        copy_early_debug_info env out0 = .ret true (.file (copiedImage env)) []) ∧
    (∀ ehdr, (copiedImage env).header = some ehdr → ehdr.e_machine = EM_X86_64 →
        (copiedImage env).shdrs = none →
        copy_early_debug_info env out0 = .ret true (.file (copiedImage env)) []) := by
  constructor
  · intro h6
    simp [copy_early_debug_info, h1, h2, h3, h4, h5, h6]
  · intro ehdr h6 h7 h8
    simp [copy_early_debug_info, h1, h2, h3, h4, h5, h6, h7, h8]

/-- Witness for C3's theorem: at the concrete success input, the call
returns the copied image untouched, having walked exactly the one
relocation section, whose record still carries the x86-64 type code. -/
theorem copy_early_debug_info_no_rewrite_witness :
    copy_early_debug_info envW .absent = .ret true (.file (copiedImage envW)) [shdrRela] ∧
    (copiedImage envW).readData shdrRela = some relaBytes ∧
    relaBytes.get? 8 = some R_X86_64_64 := by
  refine ⟨?_, rfl, rfl⟩
  have h := copy_early_debug_info_no_rewrite envW .absent rfl rfl rfl rfl rfl
    { e_machine := EM_X86_64, e_shoff := 64, e_shnum := 2 } rfl rfl [shdrText, shdrRela] rfl
  rw [h]
  rfl

/-- Witness for C7's theorem: a failed copy leaves no output file and
returns failure. -/
theorem copy_failure_removes_output_witness :
    copy_early_debug_info envWcopyFail (.file imgW) = .ret false .absent [] :=
  copy_failure_removes_output envWcopyFail (.file imgW) rfl rfl rfl rfl

/-- Witness for C10's theorem: both read-back failures still yield success
with no relocation section examined. -/
theorem copy_success_despite_readback_failure_witness :
    copy_early_debug_info envWshortHeader .absent =
      .ret true (.file (copiedImage envWshortHeader)) [] ∧
    copy_early_debug_info envWshortShdrs .absent =
      .ret true (.file (copiedImage envWshortShdrs)) [] := by
  constructor
  · exact (copy_success_despite_readback_failure envWshortHeader .absent
      rfl rfl rfl rfl rfl).1 rfl
  · exact (copy_success_despite_readback_failure envWshortShdrs .absent
      rfl rfl rfl rfl rfl).2 { e_machine := EM_X86_64, e_shoff := 64, e_shnum := 2 } rfl rfl rfl

/-! ### Control-flow lemmas about `main_run` -/

theorem resolve_driver_error_cases (sys : Sys) (env0 : EnvMap) (cg : String) (o : Outcome)
    (h : resolve_driver sys env0 cg = .error o) :
    o = .crash ∨ o = .fatal .offloadCompilerNotFound := by
  simp only [resolve_driver] at h
  repeat' split at h
  all_goals simp_all

theorem main_lp64_exit_code (sys : Sys) (env0 : EnvMap) (argv : List String) (driver : String)
    (fl : ScanFlags) (ccPass : List String) (dumppfx : Option String)
    (reg1 : List String) (k1 : Nat) (abi : String) (c : Int)
    (h : (main_lp64 sys env0 argv driver fl ccPass dumppfx reg1 k1 abi).outcome = .exited c) :
    c = -1 := by
  simp only [main_lp64] at h
  repeat' split at h
  all_goals simp_all

theorem main_stage2_exit_code (sys : Sys) (env0 : EnvMap) (argv : List String) (driver : String)
    (fl : ScanFlags) (abi : String) (isLp64 : Bool) (c : Int)
    (h : (main_stage2 sys env0 argv driver fl abi isLp64).outcome = .exited c) :
    c = -1 := by
  simp only [main_stage2] at h
  repeat' split at h
  all_goals first
    | exact main_lp64_exit_code _ _ _ _ _ _ _ _ _ _ _ h
    | simp_all [mrFatal]

theorem main_run_exit_code (sys : Sys) (env0 : EnvMap) (argv : List String) (c : Int)
    (h : (main_run sys env0 argv).outcome = .exited c) :
    c = -1 := by
  unfold main_run at h
  split at h
  · simp [mrFatal] at h
  · split at h
    · simp [mrFatal] at h
    · split at h
      · rename_i o heq
        simp at h
        rcases resolve_driver_error_cases _ _ _ _ heq with h1 | h1 <;> simp [h1] at h
      · split at h
        · simp [mrFatal] at h
        · split at h
          · simp [mrFatal] at h
          · split at h
            · simp at h
            · exact main_stage2_exit_code _ _ _ _ _ _ _ _ h
            · exact main_stage2_exit_code _ _ _ _ _ _ _ _ h

theorem main_lp64_spawns (sys : Sys) (env0 : EnvMap) (argv : List String) (driver : String)
    (fl : ScanFlags) (ccPass : List String) (dumppfx : Option String)
    (reg1 : List String) (k1 : Nat) (abi : String) :
    (main_lp64 sys env0 argv driver fl ccPass dumppfx reg1 k1 abi).spawns.length ≤ 1 := by
  simp [main_lp64]

theorem main_stage2_spawns (sys : Sys) (env0 : EnvMap) (argv : List String) (driver : String)
    (fl : ScanFlags) (abi : String) (isLp64 : Bool) :
    (main_stage2 sys env0 argv driver fl abi isLp64).spawns.length ≤ 1 := by
  simp only [main_stage2]
  repeat' split
  all_goals first
    | exact main_lp64_spawns _ _ _ _ _ _ _ _ _ _
    | simp [mrFatal]

theorem main_run_spawns (sys : Sys) (env0 : EnvMap) (argv : List String) :
    (main_run sys env0 argv).spawns.length ≤ 1 := by
  unfold main_run
  repeat' split
  all_goals first
    | exact main_stage2_spawns _ _ _ _ _ _ _
    | simp [mrFatal]

theorem main_lp64_no_flag_fatal (sys : Sys) (env0 : EnvMap) (argv : List String) (driver : String)
    (fl : ScanFlags) (ccPass : List String) (dumppfx : Option String)
    (reg1 : List String) (k1 : Nat) (abi : String) :
    (main_lp64 sys env0 argv driver fl ccPass dumppfx reg1 k1 abi).outcome ≠
      .fatal .modelFlagMissing := by
  simp only [main_lp64]
  repeat' split
  all_goals simp

theorem main_stage2_no_flag_fatal (sys : Sys) (env0 : EnvMap) (argv : List String)
    (driver : String) (fl : ScanFlags) (abi : String) (isLp64 : Bool) :
    (main_stage2 sys env0 argv driver fl abi isLp64).outcome ≠ .fatal .modelFlagMissing := by
  simp only [main_stage2]
  repeat' split
  all_goals first
    | exact main_lp64_no_flag_fatal _ _ _ _ _ _ _ _ _ _
    | simp [mrFatal]

/-- The flags the scan recognizes: when `-dumpbase` does not occur in the
vector, a model flag is recognized exactly when it is present (the
accumulator-general statement needed for the induction). -/
theorem scan_args_recognized (l : List String) (st fl : ScanFlags)
    (hnd : "-dumpbase" ∉ l) (h : scan_args l st = .ok fl) :
    (fl.fopenmp = true ↔ (st.fopenmp = true ∨ "-fopenmp" ∈ l)) ∧
    (fl.fopenacc = true ↔ (st.fopenacc = true ∨ "-fopenacc" ∈ l)) := by
  induction l generalizing st with
  | nil =>
    simp only [scan_args, Except.ok.injEq] at h
    subst h
    simp
  | cons a rest ih =>
    have hnd2 : "-dumpbase" ∉ rest := fun hm => hnd (List.mem_cons_of_mem _ hm)
    have hna : ¬(a = "-dumpbase") := fun he => hnd (he ▸ List.mem_cons_self _ _)
    rw [scan_args.eq_def] at h
    simp only [] at h
    by_cases h1 : startswith a "-foffload-abi=" = true
    · have ha1 : ¬(("-fopenmp" : String) = a) := by
        intro he; rw [← he] at h1; exact absurd h1 (by decide)
      have ha2 : ¬(("-fopenacc" : String) = a) := by
        intro he; rw [← he] at h1; exact absurd h1 (by decide)
      rw [if_pos h1] at h
      by_cases h2 : dropChars a 14 = "lp64"
      · rw [if_pos h2] at h
        have hr := ih _ hnd2 h
        simp [hr.1, hr.2, List.mem_cons, ha1, ha2]
      · rw [if_neg h2] at h
        by_cases h3 : dropChars a 14 = "ilp32"
        · rw [if_pos h3] at h
          have hr := ih _ hnd2 h
          simp [hr.1, hr.2, List.mem_cons, ha1, ha2]
        · rw [if_neg h3] at h
          exact absurd h (by simp)
    · rw [if_neg h1] at h
      by_cases h2 : a = "-fopenmp"
      · subst h2
        rw [if_pos rfl] at h
        have hr := ih _ hnd2 h
        have hne : ¬(("-fopenacc" : String) = "-fopenmp") := by decide
        constructor
        · simp [hr.1, List.mem_cons]
        · simp [hr.2, List.mem_cons, hne]
      · rw [if_neg h2] at h
        by_cases h3 : a = "-fopenacc"
        · subst h3
          rw [if_pos rfl] at h
          have hr := ih _ hnd2 h
          have hne : ¬(("-fopenmp" : String) = "-fopenacc") := by decide
          constructor
          · simp [hr.1, List.mem_cons, hne]
          · simp [hr.2, List.mem_cons]
        · rw [if_neg h3] at h
          have h2s : ¬(("-fopenmp" : String) = a) := fun he => h2 he.symm
          have h3s : ¬(("-fopenacc" : String) = a) := fun he => h3 he.symm
          by_cases h4 : a = "-fPIC"
          · rw [if_pos h4] at h
            have hr := ih _ hnd2 h
            simp [hr.1, hr.2, List.mem_cons, h2s, h3s]
          · rw [if_neg h4] at h
            by_cases h5 : a = "-fpic"
            · rw [if_pos h5] at h
              have hr := ih _ hnd2 h
              simp [hr.1, hr.2, List.mem_cons, h2s, h3s]
            · rw [if_neg h5] at h
              by_cases h6 : a = "-save-temps"
              · rw [if_pos h6] at h
                have hr := ih _ hnd2 h
                simp [hr.1, hr.2, List.mem_cons, h2s, h3s]
              · rw [if_neg h6] at h
                by_cases h7 : a = "-v"
                · rw [if_pos h7] at h
                  have hr := ih _ hnd2 h
                  simp [hr.1, hr.2, List.mem_cons, h2s, h3s]
                · rw [if_neg h7, if_neg hna] at h
                  have hr := ih _ hnd2 h
                  simp [hr.1, hr.2, List.mem_cons, h2s, h3s]

/-! ### Claim theorems about `main_run` -/

/-- C1 (code evidence): whenever the process reaches `return` from `main`,
the exit status is `-1` — never the link stage's status and never `0` —
and at most one subprocess (the compile stage) was ever spawned: the link
argument vector is built but no link subprocess exists. -/
theorem main_exit_always_minus_one (sys : Sys) (env0 : EnvMap) (argv : List String) (c : Int)
    (h : (main_run sys env0 argv).outcome = .exited c) :
    c = -1 ∧ (main_run sys env0 argv).spawns.length ≤ 1 :=
  ⟨main_run_exit_code sys env0 argv c h, main_run_spawns sys env0 argv⟩

/-- Witness for C1's theorem: the well-formed invocation `argvA` with a
successful compile stage reaches return and exits with `-1`. -/
theorem main_exit_always_minus_one_witness :
    (-1 : Int) = -1 ∧ (main_run sysA envA argvA).spawns.length ≤ 1 :=
  main_exit_always_minus_one sysA envA argvA (-1) rfl

/-- C2 counterexample: in
`argvC2 = [-foffload-abi=lp64, -dumpbase, -fopenmp, -fopenacc]` both model
flags are present in the argument vector, yet the driver does not terminate
with a configuration error: `-fopenmp` is consumed as the operand of
`-dumpbase`, the exclusivity check passes, a subprocess is spawned and the
run exits normally. -/
theorem exclusive_model_flags_counterexample :
    "-fopenmp" ∈ argvC2 ∧ "-fopenacc" ∈ argvC2 ∧
    (main_run sysA envA argvC2).outcome = .exited (-1) ∧
    (main_run sysA envA argvC2).spawns.length = 1 := by
  refine ⟨?_, ?_, rfl, rfl⟩ <;> decide

/-- C2 (amended): consider a run whose toolchain-resolution phase succeeds
(`COLLECT_GCC` is set to a bare name, `atexit` succeeds) and whose argument
scan completes.  If the scan recognizes both or neither of
`-fopenacc`/`-fopenmp`, the driver terminates with the mutual-exclusion
fatal configuration error having spawned no subprocess; if it recognizes
exactly one, this check passes (that fatal never occurs).  When
`-dumpbase` does not occur in the vector, "recognized" coincides with
"present"; an occurrence consumed as the operand of a preceding
`-dumpbase` is not recognized. -/
theorem exclusive_model_flags_amended (sys : Sys) (env0 : EnvMap) (argv : List String)
    (cg : String) (fl : ScanFlags)
    (hc : env0 EnvVar.collectGcc = some cg) (hb : basename cg = cg)
    (ha : sys.atexitOk = true) (hs : scan_args argv {} = .ok fl) :
    (fl.fopenacc = fl.fopenmp →
        main_run sys env0 argv = mrFatal env0 [] .modelFlagMissing ∧
        (main_run sys env0 argv).spawns = []) ∧
    (fl.fopenacc ≠ fl.fopenmp →
        (main_run sys env0 argv).outcome ≠ .fatal .modelFlagMissing) ∧
    ("-dumpbase" ∉ argv →
        ((fl.fopenmp = true ↔ "-fopenmp" ∈ argv) ∧
         (fl.fopenacc = true ↔ "-fopenacc" ∈ argv))) := by
  have hres : resolve_driver sys env0 cg = .ok sys.gcc_install_name := by
    simp [resolve_driver, hb]
  refine ⟨?_, ?_, ?_⟩
  · intro hx
    have hxor : Bool.xor fl.fopenacc fl.fopenmp = false := by
      rw [hx]; cases fl.fopenmp <;> rfl
    have hmain : main_run sys env0 argv = mrFatal env0 [] .modelFlagMissing := by
      simp [main_run, ha, hc, hres, hs, hxor]
    exact ⟨hmain, by rw [hmain]; rfl⟩
  · intro hx
    have hxor : Bool.xor fl.fopenacc fl.fopenmp = true := by
      cases hacc : fl.fopenacc <;> cases hmp : fl.fopenmp <;> simp_all
    simp only [main_run, ha, hc, hres, hs, hxor]
    simp only [Bool.true_eq_false, if_false]
    cases fl.offload_abi with
    | unset => simp
    | lp64 => exact main_stage2_no_flag_fatal _ _ _ _ _ _ _
    | ilp32 => exact main_stage2_no_flag_fatal _ _ _ _ _ _ _
  · intro hnd
    have hr := scan_args_recognized argv {} fl hnd hs
    constructor
    · simpa using hr.1
    · simpa using hr.2

/-- Witness for C2's amended theorem: with both flags recognized
(`[-fopenmp, -fopenacc]`, no `-dumpbase`), the run is exactly the
mutual-exclusion fatal and no subprocess is spawned. -/
theorem exclusive_model_flags_amended_witness :
    main_run sysA envA ["-fopenmp", "-fopenacc"] = mrFatal envA [] .modelFlagMissing ∧
    (main_run sysA envA ["-fopenmp", "-fopenacc"]).spawns = [] :=
  (exclusive_model_flags_amended sysA envA ["-fopenmp", "-fopenacc"] "gcc"
    { fopenmp := true, fopenacc := true } rfl rfl rfl rfl).1 rfl

/-- C4 (code evidence): the exit-time cleanup pass deletes nothing —
`tool_cleanup` has an empty body, so it is the identity on every
filesystem state, for both the signal and the `atexit` trigger — while a
successful run without `-save-temps` leaves five paths registered in
`files_to_cleanup`: every registered temp artifact is leaked, none is
deleted even once. -/
theorem cleanup_deletes_nothing :
    (∀ (b : Bool) (fs : String → Bool), tool_cleanup b fs = fs ∧ mkoffload_cleanup fs = fs) ∧
    (main_run sysA envA argvA).registry.length = 5 :=
  ⟨fun _ _ => ⟨rfl, rfl⟩, rfl⟩

/-- C5 (code evidence): in a run that reaches the end of `main` with all
three toolchain redirection variables initially set, the variables are
unset for the link stage but never restored: the final environment has all
three unset (the saved values of lines 442-444 are dead locals). -/
theorem link_env_vars_not_restored :
    envA EnvVar.gccExecPfx = some "P" ∧
    envA EnvVar.compilerPath = some "Q" ∧
    envA EnvVar.libraryPath = some "R" ∧
    (main_run sysA envA argvA).outcome = .exited (-1) ∧
    (main_run sysA envA argvA).env EnvVar.gccExecPfx = none ∧
    (main_run sysA envA argvA).env EnvVar.compilerPath = none ∧
    (main_run sysA envA argvA).env EnvVar.libraryPath = none :=
  ⟨rfl, rfl, rfl, rfl, rfl, rfl, rfl⟩

/-- C6 (code evidence): for an input object `x.o` that is a recognizable
container without the debug section, the extractor itself returns failure
and creates no output file (first two conjuncts), but the driver registers
the derived debug-object path with `files_to_cleanup` before attempting the
extraction and leaves it registered after the failure — indeed it also
passes the registered string to `free` (line 414). -/
theorem failed_extraction_path_still_registered :
    sysA.extract_ok "x.o" = false ∧
    copy_early_debug_info envNoDebugC6 .absent = .ret false .absent [] ∧
    "base.mkoffload.dbg0.o" ∈ (main_run sysA envA argvC6).registry ∧
    "base.mkoffload.dbg0.o" ∈ (main_run sysA envA argvC6).freed := by
  refine ⟨rfl, rfl, ?_, ?_⟩ <;> decide

/-- Witness for C8's theorem: in a filesystem where only `d1/cc1` exists
(a non-directory executable), the acceptance condition holds at `d1/cc1`,
the search over `d1:d2` returns `d1/cc1`, and `resolve_driver` with a
failing direct probe returns exactly that search result. -/
theorem toolchain_locator_correct_witness :
    (access_check fsW "d1/cc1" X_OK = 0 ↔
        ∃ st, fsW "d1/cc1" = some st ∧ st.isDir = false ∧ st.executable = true) ∧
    find_in_paths fsW "cc1" ["d1", "d2"] = some "d1/cc1" ∧
    resolve_driver sysW envWm "dir/gcc" = .ok "d1/cc1" := by
  have h := toolchain_locator_correct fsW "cc1" ["d1", "d2"]
  refine ⟨h.1 "d1/cc1", ?_, ?_⟩
  · rw [h.2.1]; rfl
  · have h3 := h.2.2 sysW envWm "dir/gcc" "d1:d2" rfl rfl (by decide) (by decide) rfl
    rw [h3]; rfl

end Mkoffload
